import Mathlib

/-!
Verification of the EduSystem student-information-system backend.

The Django models, serializers, signal handlers and views from
`app/models.py`, `app/serializers.py`, `app/signals.py` and `app/views.py`
are shallowly embedded as Lean definitions: database tables become lists of
rows, calendar dates become ordinal day numbers (`Nat`), ORM operations
become pure functions on table lists, and operations that can raise
(database integrity errors, serializer validation errors) return `Except`.
Foreign keys are stored as numeric ids; where a signal handler dereferences
a foreign key (for example `instance.course.program`), the instance
structure embeds the referenced row, mirroring the attribute access.
-/

namespace EduSystem

/-- Calendar dates, as ordinal day numbers. -/
abbrev Date := Nat

/-! ## Users, profiles and role-based permissions (`app/models.py`) -/

/-- `UserProfile` row: one-to-one with a user, plus a role string
(`Admin`, `Staff` or `Student`). -/
structure UserProfile where
  userId : Nat
  role : String
deriving DecidableEq, Repr

/-- A Django `User` as seen by a request, together with its profile
(`request.user.profile`). `is_authenticated` is false for the anonymous
user. -/
structure AuthUser where
  id : Nat
  is_authenticated : Bool
  is_staff : Bool
  is_superuser : Bool
  profile : UserProfile
deriving DecidableEq, Repr

/-- The part of a DRF view that `RoleBasedPermission` inspects:
`getattr(view, 'allowed_roles', [])`, so the attribute is optional. -/
structure View where
  allowed_roles : Option (List String)
deriving DecidableEq, Repr

/-- `RoleBasedPermission.has_permission` from `app/models.py`:
read `allowed_roles` off the view (defaulting to `[]`), deny unauthenticated
users, otherwise test membership of the profile role. -/
def RoleBasedPermission.has_permission (request_user : AuthUser) (view : View) : Bool :=
  let allowed_roles := view.allowed_roles.getD []
  if request_user.is_authenticated = false then false
  else allowed_roles.contains request_user.profile.role

/-! ## Students (`app/models.py`) and the student queryset (`app/views.py`) -/

/-- `Student` row. `user` is a one-to-one foreign key; the column is
NOT NULL in the schema, but the Python object can carry `None` before the
database rejects it, hence `Option Nat` here with the NOT NULL check in
`Student.dbInsert`. The `photo` file field is omitted. -/
structure Student where
  id : Nat
  registration_no : String
  user : Option Nat
  full_name : String
  gender : String
  dob : Date
  email : String
  phone : String
  address : String
  program : Nat
  enrollment_year : Nat
  is_active : Bool
deriving DecidableEq, Repr

/-- Insert a student row, keeping the rows ordered by descending `id`
(the `order_by("-id")` of the default student queryset). -/
def insertByIdDesc (s : Student) : List Student → List Student
  | [] => [s]
  | t :: ts => if t.id ≤ s.id then s :: t :: ts else t :: insertByIdDesc s ts

/-- `Student.objects.all().order_by("-id")`, the class-level `queryset` of
`StudentViewSet`. -/
def order_by_id_desc (db : List Student) : List Student :=
  db.foldr insertByIdDesc []

/-- `StudentViewSet.get_queryset` from `app/views.py`: a `Student` role sees
only rows whose `user` is the requesting user, `Staff` sees
`Student.objects.all()`, and any other role falls back to
`super().get_queryset()`, i.e. the class-level ordered queryset. -/
def StudentViewSet.get_queryset (db : List Student) (u : AuthUser) : List Student :=
  let role := u.profile.role
  if role = "Student" then db.filter (fun s => s.user = some u.id)
  else if role = "Staff" then db
  else order_by_id_desc db

theorem mem_insertByIdDesc (s x : Student) (l : List Student) :
    x ∈ insertByIdDesc s l ↔ x = s ∨ x ∈ l := by
  induction l with
  | nil => simp [insertByIdDesc]
  | cons t ts ih =>
    simp only [insertByIdDesc]
    by_cases h : t.id ≤ s.id
    · simp [h]
    · simp only [if_neg h, List.mem_cons, ih]
      tauto

theorem mem_order_by_id_desc (db : List Student) (x : Student) :
    x ∈ order_by_id_desc db ↔ x ∈ db := by
  induction db with
  | nil => simp [order_by_id_desc]
  | cons t ts ih =>
    simp only [order_by_id_desc, List.foldr] at ih ⊢
    rw [mem_insertByIdDesc]
    simp [ih, eq_comm]

/-! ## Claim theorems C1 and C2 -/

/-- Claim C1: `RoleBasedPermission.has_permission` grants access if and only
if the requesting user is authenticated and the role stored on the profile
is a member of the view's `allowed_roles` list (the empty list when the view
defines none, so access is then always denied). -/
theorem C1_role_based_permission (u : AuthUser) (v : View) :
    (RoleBasedPermission.has_permission u v = true ↔
      (u.is_authenticated = true ∧ u.profile.role ∈ v.allowed_roles.getD [])) ∧
    (v.allowed_roles = none → RoleBasedPermission.has_permission u v = false) := by
  constructor
  · unfold RoleBasedPermission.has_permission
    by_cases h : u.is_authenticated = false
    · simp [h]
    · simp only [Bool.not_eq_false] at h
      simp [h, List.elem_iff]
  · intro h
    unfold RoleBasedPermission.has_permission
    simp [h]

/-- A concrete authenticated admin user, for witnesses. -/
def userAdmin : AuthUser :=
  { id := 1, is_authenticated := true, is_staff := false, is_superuser := true,
    profile := { userId := 1, role := "Admin" } }

/-- A view with no `allowed_roles` attribute. -/
def viewNoRoles : View := { allowed_roles := none }

theorem C1_role_based_permission_witness :
    RoleBasedPermission.has_permission userAdmin viewNoRoles = false :=
  (C1_role_based_permission userAdmin viewNoRoles).2 rfl

/-- Claim C2: for a requesting user whose profile role is `Student`, the
student queryset contains only rows whose `user` field is that user, and the
result depends only on that user's own rows (runs over two databases that
agree on the user's rows coincide); for any other role the queryset contains
exactly the rows of the whole student table. -/
theorem C2_student_queryset_scoping (u : AuthUser) (db db2 : List Student) :
    (u.profile.role = "Student" →
      (∀ s ∈ StudentViewSet.get_queryset db u, s.user = some u.id) ∧
      (db.filter (fun s => s.user = some u.id) = db2.filter (fun s => s.user = some u.id) →
        StudentViewSet.get_queryset db u = StudentViewSet.get_queryset db2 u)) ∧
    (u.profile.role ≠ "Student" →
      ∀ s : Student, s ∈ StudentViewSet.get_queryset db u ↔ s ∈ db) := by
  constructor
  · intro hrole
    constructor
    · intro s hs
      simp only [StudentViewSet.get_queryset, hrole, if_pos, List.mem_filter,
        decide_eq_true_eq, reduceIte] at hs
      exact hs.2
    · intro hagree
      unfold StudentViewSet.get_queryset
      simp only [hrole, if_pos rfl]
      exact hagree
  · intro hrole s
    unfold StudentViewSet.get_queryset
    simp only [if_neg hrole]
    by_cases hstaff : u.profile.role = "Staff"
    · simp [hstaff]
    · simp only [if_neg hstaff]
      exact mem_order_by_id_desc db s

/-- A student-role user owning `studentRowA`. -/
def userStu : AuthUser :=
  { id := 7, is_authenticated := true, is_staff := false, is_superuser := false,
    profile := { userId := 7, role := "Student" } }

/-- A student row belonging to `userStu`. -/
def studentRowA : Student :=
  { id := 1, registration_no := "R-001", user := some 7, full_name := "Alice",
    gender := "Female", dob := 100, email := "a@x.com", phone := "111",
    address := "addr a", program := 1, enrollment_year := 2020, is_active := true }

/-- A student row belonging to a different user. -/
def studentRowB : Student :=
  { id := 2, registration_no := "R-002", user := some 8, full_name := "Bob",
    gender := "Male", dob := 120, email := "b@x.com", phone := "222",
    address := "addr b", program := 1, enrollment_year := 2021, is_active := true }

/-- Another student row belonging to a different user. -/
def studentRowC : Student :=
  { id := 3, registration_no := "R-003", user := some 9, full_name := "Carol",
    gender := "Female", dob := 130, email := "c@x.com", phone := "333",
    address := "addr c", program := 2, enrollment_year := 2021, is_active := true }

theorem C2_student_queryset_scoping_witness :
    StudentViewSet.get_queryset [studentRowA, studentRowB] userStu
      = StudentViewSet.get_queryset [studentRowA, studentRowC] userStu :=
  ((C2_student_queryset_scoping userStu [studentRowA, studentRowB]
      [studentRowA, studentRowC]).1 rfl).2 (by decide)

/-! ## Enrollment and attendance join rows (`app/models.py`,
`app/serializers.py`) -/

/-- `Enrollment` row, with foreign keys stored as ids.
`unique_together = ("student", "course", "semester", "year")`. -/
structure Enrollment where
  id : Nat
  student : Nat
  course : Nat
  semester : Nat
  year : Nat
  date_enrolled : Date
deriving DecidableEq, Repr

/-- `Attendance` row, with foreign keys stored as ids.
`unique_together = ("student", "course", "date")`. -/
structure Attendance where
  id : Nat
  student : Nat
  course : Nat
  date : Date
  status : String
deriving DecidableEq, Repr

/-- Two enrollment rows agree on the `unique_together` key
(student, course, semester, year). -/
def Enrollment.sameKey (a b : Enrollment) : Bool :=
  (a.student == b.student) && (a.course == b.course) &&
    (a.semester == b.semester) && (a.year == b.year)

/-- Two attendance rows agree on the `unique_together` key
(student, course, date). -/
def Attendance.sameKey (a b : Attendance) : Bool :=
  (a.student == b.student) && (a.course == b.course) && (a.date == b.date)

/-- `EnrollmentSerializer.validate` from `app/serializers.py`: reject the
incoming data when a row with the same (student, course, semester, year)
already exists. -/
def EnrollmentSerializer.validate (db : List Enrollment) (e : Enrollment) :
    Except String Enrollment :=
  if db.any (fun r => Enrollment.sameKey r e) then
    Except.error "This student is already enrolled in this course for this semester/year."
  else Except.ok e

/-- `AttendanceSerializer.validate` from `app/serializers.py`: reject the
incoming data when a row with the same (student, course, date) already
exists. -/
def AttendanceSerializer.validate (db : List Attendance) (a : Attendance) :
    Except String Attendance :=
  if db.any (fun r => Attendance.sameKey r a) then
    Except.error "Attendance already exists for this student/course/date."
  else Except.ok a

/-- The two join tables guarded by the serializer validation. -/
structure JoinState where
  enrollments : List Enrollment
  attendance : List Attendance
deriving DecidableEq, Repr

/-- The empty database. -/
def JoinState.init : JoinState := { enrollments := [], attendance := [] }

/-- A create request through `EnrollmentSerializer`: on validation error the
stored state is unchanged, otherwise the validated row is inserted. -/
def enrollmentCreate (s : JoinState) (e : Enrollment) : JoinState :=
  match EnrollmentSerializer.validate s.enrollments e with
  | Except.error _ => s
  | Except.ok e2 => { s with enrollments := s.enrollments ++ [e2] }

/-- A create request through `AttendanceSerializer`: on validation error the
stored state is unchanged, otherwise the validated row is inserted. -/
def attendanceCreate (s : JoinState) (a : Attendance) : JoinState :=
  match AttendanceSerializer.validate s.attendance a with
  | Except.error _ => s
  | Except.ok a2 => { s with attendance := s.attendance ++ [a2] }

/-- States reachable from the empty database through serializer-mediated
create requests. -/
inductive JoinReach : JoinState → Prop
  | init : JoinReach JoinState.init
  | enroll (s : JoinState) (e : Enrollment) :
      JoinReach s → JoinReach (enrollmentCreate s e)
  | attend (s : JoinState) (a : Attendance) :
      JoinReach s → JoinReach (attendanceCreate s a)

/-- No two enrollment rows of the table agree on the unique key. -/
def JoinState.enrollOk (s : JoinState) : Prop :=
  s.enrollments.Pairwise (fun a b => Enrollment.sameKey a b = false)

/-- No two attendance rows of the table agree on the unique key. -/
def JoinState.attendOk (s : JoinState) : Prop :=
  s.attendance.Pairwise (fun a b => Attendance.sameKey a b = false)

theorem enrollmentCreate_enrollOk (s : JoinState) (e : Enrollment)
    (h : s.enrollOk) : (enrollmentCreate s e).enrollOk := by
  unfold enrollmentCreate EnrollmentSerializer.validate
  by_cases hdup : s.enrollments.any (fun r => Enrollment.sameKey r e) = true
  · simp [hdup, h]
  · simp only [Bool.not_eq_true] at hdup
    simp only [hdup, Bool.false_eq_true, if_false]
    unfold JoinState.enrollOk at h ⊢
    rw [List.pairwise_append]
    refine ⟨h, List.pairwise_singleton _ _, ?_⟩
    intro x hx b hb
    rw [List.mem_singleton] at hb
    subst hb
    have h2 := List.any_eq_false.mp hdup
    simpa using h2 x hx

theorem attendanceCreate_attendOk (s : JoinState) (a : Attendance)
    (h : s.attendOk) : (attendanceCreate s a).attendOk := by
  unfold attendanceCreate AttendanceSerializer.validate
  by_cases hdup : s.attendance.any (fun r => Attendance.sameKey r a) = true
  · simp [hdup, h]
  · simp only [Bool.not_eq_true] at hdup
    simp only [hdup, Bool.false_eq_true, if_false]
    unfold JoinState.attendOk at h ⊢
    rw [List.pairwise_append]
    refine ⟨h, List.pairwise_singleton _ _, ?_⟩
    intro x hx b hb
    rw [List.mem_singleton] at hb
    subst hb
    have h2 := List.any_eq_false.mp hdup
    simpa using h2 x hx

theorem enrollmentCreate_keeps_attendance (s : JoinState) (e : Enrollment) :
    (enrollmentCreate s e).attendance = s.attendance := by
  unfold enrollmentCreate
  cases EnrollmentSerializer.validate s.enrollments e <;> rfl

theorem attendanceCreate_keeps_enrollments (s : JoinState) (a : Attendance) :
    (attendanceCreate s a).enrollments = s.enrollments := by
  unfold attendanceCreate
  cases AttendanceSerializer.validate s.attendance a <;> rfl

/-- Claim C4: in every reachable state no two `Enrollment` rows agree on
(student, course, semester, year) and no two `Attendance` rows agree on
(student, course, date); a create that duplicates an existing key fails with
the serializer validation error and leaves the stored state unchanged. -/
theorem C4_join_row_uniqueness (s : JoinState) (h : JoinReach s) :
    s.enrollOk ∧ s.attendOk ∧
    (∀ e : Enrollment, s.enrollments.any (fun r => Enrollment.sameKey r e) = true →
      EnrollmentSerializer.validate s.enrollments e =
        Except.error "This student is already enrolled in this course for this semester/year." ∧
      enrollmentCreate s e = s) ∧
    (∀ a : Attendance, s.attendance.any (fun r => Attendance.sameKey r a) = true →
      AttendanceSerializer.validate s.attendance a =
        Except.error "Attendance already exists for this student/course/date." ∧
      attendanceCreate s a = s) := by
  have hinv : s.enrollOk ∧ s.attendOk := by
    induction h with
    | init => constructor <;> simp [JoinState.init, JoinState.enrollOk, JoinState.attendOk]
    | enroll s0 e h0 ih =>
      refine ⟨enrollmentCreate_enrollOk s0 e ih.1, ?_⟩
      have := enrollmentCreate_keeps_attendance s0 e
      unfold JoinState.attendOk at ih ⊢
      rw [this]
      exact ih.2
    | attend s0 a h0 ih =>
      refine ⟨?_, attendanceCreate_attendOk s0 a ih.2⟩
      have := attendanceCreate_keeps_enrollments s0 a
      unfold JoinState.enrollOk at ih ⊢
      rw [this]
      exact ih.1
  refine ⟨hinv.1, hinv.2, ?_, ?_⟩
  · intro e hdup
    constructor
    · unfold EnrollmentSerializer.validate
      simp [hdup]
    · unfold enrollmentCreate EnrollmentSerializer.validate
      simp [hdup]
  · intro a hdup
    constructor
    · unfold AttendanceSerializer.validate
      simp [hdup]
    · unfold attendanceCreate AttendanceSerializer.validate
      simp [hdup]

/-- A concrete enrollment row. -/
def enrollRow1 : Enrollment :=
  { id := 1, student := 7, course := 3, semester := 1, year := 2024, date_enrolled := 10 }

/-- A concrete reachable state: insert `enrollRow1`, then attempt the same
key again (the second create is rejected and changes nothing). -/
def joinState1 : JoinState :=
  enrollmentCreate (enrollmentCreate JoinState.init enrollRow1) enrollRow1

theorem C4_join_row_uniqueness_witness :
    joinState1.enrollOk ∧ joinState1.attendOk :=
  ⟨(C4_join_row_uniqueness joinState1
      (JoinReach.enroll _ enrollRow1 (JoinReach.enroll _ enrollRow1 JoinReach.init))).1,
   (C4_join_row_uniqueness joinState1
      (JoinReach.enroll _ enrollRow1 (JoinReach.enroll _ enrollRow1 JoinReach.init))).2.1⟩

/-! ## The dashboard endpoint (`app/views.py`)

For the dashboard only the creation date of each row matters, so each table
is modelled as the list of creation dates of its rows.  Only the
`Notification` model has a `created_at` column (`auto_now_add`, so it equals
the creation date); for every other model the creation date exists only in
the request history, not in any column, which is exactly what
`hasattr(model, "created_at")` tests. -/

/-- `hasattr(Student, "created_at")`: the `Student` model has no
`created_at` field. -/
def Student.has_created_at : Bool := false

/-- `hasattr(Staff, "created_at")`: the `Staff` model has no `created_at`
field (it has `date_joined` instead). -/
def Staff.has_created_at : Bool := false

/-- `hasattr(Admission, "created_at")`: the `Admission` model has no
`created_at` field (it has `admission_date` instead). -/
def Admission.has_created_at : Bool := false

/-- `hasattr(Enrollment, "created_at")`: the `Enrollment` model has no
`created_at` field (it has `date_enrolled` instead). -/
def Enrollment.has_created_at : Bool := false

/-- `hasattr(Attendance, "created_at")`: the `Attendance` model has no
`created_at` field. -/
def Attendance.has_created_at : Bool := false

/-- `hasattr(Exam, "created_at")`: the `Exam` model has no `created_at`
field. -/
def Exam.has_created_at : Bool := false

/-- `hasattr(Grade, "created_at")`: the `Grade` model has no `created_at`
field. -/
def Grade.has_created_at : Bool := false

/-- `hasattr(Fee, "created_at")`: the `Fee` model has no `created_at`
field. -/
def Fee.has_created_at : Bool := false

/-- `hasattr(Notification, "created_at")`: the `Notification` model does
have a `created_at` field (`auto_now_add=True`). -/
def Notification.has_created_at : Bool := true

/-- The nine tables the dashboard counts, each as the list of creation
dates of its rows. -/
structure DashDB where
  students : List Date
  staff : List Date
  admissions : List Date
  enrollments : List Date
  attendance : List Date
  exams : List Date
  grades : List Date
  fees : List Date
  notifications : List Date
deriving DecidableEq, Repr

/-- The inner `date_filter` of `DashboardAPIView.get`: when the model has a
`created_at` attribute and both bounds are set (non-`None`), filter
`created_at__range=[start, end]` (inclusive); otherwise return all rows. -/
def date_filter (has_created_at_attr : Bool) (rows : List Date)
    (start stop : Option Date) : List Date :=
  match has_created_at_attr, start, stop with
  | true, some s, some e => rows.filter (fun d => s ≤ d && d ≤ e)
  | _, _, _ => rows

/-- The response body of the dashboard endpoint. -/
structure DashCounts where
  total_students : Nat
  total_staff : Nat
  total_admissions : Nat
  total_enrollments : Nat
  total_attendance : Nat
  total_exams : Nat
  total_grades : Nat
  total_fees : Nat
  total_notifications : Nat
deriving DecidableEq, Repr

/-- `DashboardAPIView.get` from `app/views.py`, after the requested filter
has been resolved to optional `start`/`stop` bounds: each total is the count
of the rows `date_filter` keeps for that model. -/
def DashboardAPIView.get (db : DashDB) (start stop : Option Date) : DashCounts :=
  { total_students := (date_filter Student.has_created_at db.students start stop).length,
    total_staff := (date_filter Staff.has_created_at db.staff start stop).length,
    total_admissions := (date_filter Admission.has_created_at db.admissions start stop).length,
    total_enrollments := (date_filter Enrollment.has_created_at db.enrollments start stop).length,
    total_attendance := (date_filter Attendance.has_created_at db.attendance start stop).length,
    total_exams := (date_filter Exam.has_created_at db.exams start stop).length,
    total_grades := (date_filter Grade.has_created_at db.grades start stop).length,
    total_fees := (date_filter Fee.has_created_at db.fees start stop).length,
    total_notifications :=
      (date_filter Notification.has_created_at db.notifications start stop).length }

/-- Modelled from the claim wording, for comparison with
`DashboardAPIView.get`: every total is the count of rows of the
corresponding model whose creation date lies in the requested range. -/
def dashboard_range_spec (db : DashDB) (s e : Date) : DashCounts :=
  { total_students := (db.students.filter (fun d => s ≤ d && d ≤ e)).length,
    total_staff := (db.staff.filter (fun d => s ≤ d && d ≤ e)).length,
    total_admissions := (db.admissions.filter (fun d => s ≤ d && d ≤ e)).length,
    total_enrollments := (db.enrollments.filter (fun d => s ≤ d && d ≤ e)).length,
    total_attendance := (db.attendance.filter (fun d => s ≤ d && d ≤ e)).length,
    total_exams := (db.exams.filter (fun d => s ≤ d && d ≤ e)).length,
    total_grades := (db.grades.filter (fun d => s ≤ d && d ≤ e)).length,
    total_fees := (db.fees.filter (fun d => s ≤ d && d ≤ e)).length,
    total_notifications := (db.notifications.filter (fun d => s ≤ d && d ≤ e)).length }

/-- A database with one student row created on day 5 and one notification
created on day 5, all other tables empty. -/
def dashDB0 : DashDB :=
  { students := [5], staff := [], admissions := [], enrollments := [],
    attendance := [], exams := [], grades := [], fees := [],
    notifications := [5] }

/-- Claim C5 counterexample: with the range [10, 12] requested, the endpoint
still reports `total_students = 1` for a student created on day 5, while the
claimed range-restricted count is 0 (the notification total, by contrast, is
range-filtered). -/
theorem C5_dashboard_counterexample :
    (DashboardAPIView.get dashDB0 (some 10) (some 12)).total_students = 1 ∧
    (dashboard_range_spec dashDB0 10 12).total_students = 0 ∧
    (DashboardAPIView.get dashDB0 (some 10) (some 12)).total_notifications = 0 := by
  decide

/-- Claim C5 as amended: for a request that resolves to a date range, only
`total_notifications` is restricted to the range (the `Notification` model
is the only one with a `created_at` column); every other total is the count
of all rows of its model, ignoring the range. -/
theorem C5_dashboard_counts (db : DashDB) (s e : Date) :
    DashboardAPIView.get db (some s) (some e) =
      { total_students := db.students.length,
        total_staff := db.staff.length,
        total_admissions := db.admissions.length,
        total_enrollments := db.enrollments.length,
        total_attendance := db.attendance.length,
        total_exams := db.exams.length,
        total_grades := db.grades.length,
        total_fees := db.fees.length,
        total_notifications :=
          (db.notifications.filter (fun d => s ≤ d && d ≤ e)).length } := rfl

/-! ## Departments, programs, courses, staff, fees, exams
(`app/models.py`)

Where a signal handler dereferences a foreign key of its instance
(`instance.course.program`, `instance.department.name`, ...), the embedded
instance structure holds the referenced row itself. -/

/-- `Department` row (fields the handlers read). -/
structure Department where
  id : Nat
  name : String
  code : String
deriving DecidableEq, Repr

/-- `Program` row. -/
structure Program where
  id : Nat
  program_number : Nat
  name : String
  code : String
  program_type : String
  department : Nat
  duration_years : Nat
deriving DecidableEq, Repr

/-- `Course` row, with its `program` foreign key dereferenced. -/
structure Course where
  id : Nat
  code : String
  title : String
  credit_hours : Nat
  semester : Nat
  program : Program
deriving DecidableEq, Repr

/-- `Staff` row, with its nullable `department` foreign key dereferenced.
The `designation` and `photo` fields, which no claim touches, are
omitted. -/
structure Staff where
  id : Nat
  user : Option Nat
  full_name : String
  staff_type : String
  department : Option Department
  email : String
  phone : String
  is_active : Bool
deriving DecidableEq, Repr

/-- `Fee` row (`amount` is modelled as a natural number). -/
structure Fee where
  id : Nat
  student : Nat
  amount : Nat
  due_date : Date
  is_paid : Bool
  payment_date : Option Date
deriving DecidableEq, Repr

/-- `Exam` row, with its `course` foreign key dereferenced. -/
structure Exam where
  id : Nat
  course : Course
  exam_type : String
  date : Date
  total_marks : Nat
deriving DecidableEq, Repr

/-- `Notification` row.  `recipient_student` and `recipient_staff` are
nullable foreign keys, stored as optional ids.  `created_at`, which no
notification claim reads, is omitted here (the dashboard section models it
as the row's creation date). -/
structure Notification where
  recipient_student : Option Nat
  recipient_staff : Option Nat
  notif_type : String
  title : String
  message : String
  read : Bool
  auto_resolved : Bool
deriving DecidableEq, Repr

/-! ## Signal handlers (`app/signals.py`)

Each `post_save` receiver becomes a function from the notification table,
the saved instance and the `created` flag to the new notification table. -/

/-- The `Admission` instance as the handler reads it. -/
structure AdmissionInst where
  student : Nat
  program : Program
  admission_date : Date
  status : String
deriving DecidableEq, Repr

/-- `create_admission_notification`: one notification on every save,
whether created or updated. -/
def create_admission_notification (db : List Notification)
    (inst : AdmissionInst) (created : Bool) : List Notification :=
  db ++ [{ recipient_student := some inst.student, recipient_staff := none,
           notif_type := if created then "Admission" else "Admission Update",
           title := if created then "Admission Created" else "Admission Updated",
           message := "Your admission for " ++ inst.program.name ++ " has been " ++
             (if created then "created" else "updated") ++
             " with status " ++ inst.status ++ ".",
           read := false, auto_resolved := false }]

/-- The `Enrollment` instance as the handler reads it (with the course
dereferenced). -/
structure EnrollmentInst where
  student : Nat
  course : Course
  semester : Nat
  year : Nat
deriving DecidableEq, Repr

/-- `create_enrollment_notification`: one notification, only on
creation. -/
def create_enrollment_notification (db : List Notification)
    (inst : EnrollmentInst) (created : Bool) : List Notification :=
  if created then
    db ++ [{ recipient_student := some inst.student, recipient_staff := none,
             notif_type := "Enrollment", title := "Course Enrollment Successful",
             message := "You have been enrolled in " ++ inst.course.code ++
               " for Semester " ++ toString inst.semester ++
               " (" ++ toString inst.year ++ ").",
             read := false, auto_resolved := false }]
  else db

/-- The notification created for a newly assigned fee. -/
def feeNewNotif (fee : Fee) : Notification :=
  { recipient_student := some fee.student, recipient_staff := none,
    notif_type := "Fee", title := "New Fee Assigned",
    message := "A new fee of " ++ toString fee.amount ++ " is due on " ++
      toString fee.due_date ++ ".",
    read := false, auto_resolved := false }

/-- The notification created for an overdue fee. -/
def feeOverdueNotif (fee : Fee) : Notification :=
  { recipient_student := some fee.student, recipient_staff := none,
    notif_type := "Fee", title := "Fee Overdue",
    message := "Your fee of " ++ toString fee.amount ++ " is overdue!",
    read := false, auto_resolved := false }

/-- The notification created when a fee is paid: already read and
auto-resolved. -/
def feePaidNotif (fee : Fee) : Notification :=
  { recipient_student := some fee.student, recipient_staff := none,
    notif_type := "Fee", title := "Fee Paid",
    message := "Your fee of " ++ toString fee.amount ++ " has been paid.",
    read := true, auto_resolved := true }

/-- The row update performed by
`Notification.objects.filter(recipient_student=..., notif_type="Fee",
read=False).update(read=True, auto_resolved=True)`, as a per-row map. -/
def resolveFeeNotif (studentId : Nat) (n : Notification) : Notification :=
  if n.recipient_student == some studentId && n.notif_type == "Fee" &&
      n.read == false then
    { n with read := true, auto_resolved := true }
  else n

/-- `create_fee_notification`: a new unpaid fee or an overdue unpaid update
creates one notification; a paid update resolves the unread `Fee`
notifications of the student and adds a read `Fee Paid` one; any other save
creates nothing. -/
def create_fee_notification (db : List Notification) (fee : Fee)
    (created : Bool) (today : Date) : List Notification :=
  if created && !fee.is_paid then db ++ [feeNewNotif fee]
  else if !created && !fee.is_paid && decide (fee.due_date < today) then
    db ++ [feeOverdueNotif fee]
  else if !created && fee.is_paid then
    (db.map (resolveFeeNotif fee.student)) ++ [feePaidNotif fee]
  else db

/-- The notification sent to one student for a newly scheduled exam. -/
def examNotifFor (ex : Exam) (s : Student) : Notification :=
  { recipient_student := some s.id, recipient_staff := none,
    notif_type := "Exam", title := "New Exam Scheduled",
    message := "The " ++ ex.exam_type ++ " exam for " ++ ex.course.title ++
      " is scheduled on " ++ toString ex.date ++ ".",
    read := false, auto_resolved := false }

/-- `create_exam_notification`: on creation, one notification per student of
`instance.course.program` (`program.students.all()` is the student table
filtered on that program); nothing on update. -/
def create_exam_notification (allStudents : List Student)
    (db : List Notification) (inst : Exam) (created : Bool) :
    List Notification :=
  if created then
    db ++ (allStudents.filter
        (fun s => s.program == inst.course.program.id)).map (examNotifFor inst)
  else db

/-- The `Attendance` instance as the handler reads it. -/
structure AttendanceInst where
  student : Nat
  course : Course
  date : Date
  status : String
deriving DecidableEq, Repr

/-- `create_attendance_notification`: one notification, only on
creation. -/
def create_attendance_notification (db : List Notification)
    (inst : AttendanceInst) (created : Bool) : List Notification :=
  if created then
    db ++ [{ recipient_student := some inst.student, recipient_staff := none,
             notif_type := "Attendance", title := "Attendance Recorded",
             message := "Your attendance for " ++ inst.course.code ++ " on " ++
               toString inst.date ++ " has been marked as " ++ inst.status ++ ".",
             read := false, auto_resolved := false }]
  else db

/-- The `Grade` instance as the handler reads it. -/
structure GradeInst where
  student : Nat
  exam : Exam
  obtained_marks : Nat
deriving DecidableEq, Repr

/-- `create_grade_notification`: one notification, only on creation. -/
def create_grade_notification (db : List Notification) (inst : GradeInst)
    (created : Bool) : List Notification :=
  if created then
    db ++ [{ recipient_student := some inst.student, recipient_staff := none,
             notif_type := "Grade", title := inst.exam.exam_type ++ " Exam Results",
             message := "You scored " ++ toString inst.obtained_marks ++ " in " ++
               inst.exam.course.title ++ ".",
             read := false, auto_resolved := false }]
  else db

/-- `create_staff_notification`: one notification on every save, a welcome
one on creation and an update one otherwise. -/
def create_staff_notification (db : List Notification) (inst : Staff)
    (created : Bool) : List Notification :=
  if created then
    db ++ [{ recipient_student := none, recipient_staff := some inst.id,
             notif_type := "Staff", title := "Welcome to Staff",
             message := "Welcome " ++ inst.full_name ++ " to " ++
               (match inst.department with
                | some d => d.name
                | none => "the institution") ++ ".",
             read := false, auto_resolved := false }]
  else
    db ++ [{ recipient_student := none, recipient_staff := some inst.id,
             notif_type := "Staff", title := "Staff Record Updated",
             message := "Your staff record has been updated.",
             read := false, auto_resolved := false }]

/-! ## Claim C6: exam notification fan-out -/

/-- Claim C6: creating an `Exam` appends exactly one notification per
student of the exam course's program, each addressed to that student with
`notif_type` `Exam`; saving an existing exam appends none. -/
theorem C6_exam_notification_fanout (allStudents : List Student)
    (db : List Notification) (ex : Exam) :
    ((create_exam_notification allStudents db ex true).length =
        db.length +
          (allStudents.filter (fun s => s.program == ex.course.program.id)).length) ∧
    (((create_exam_notification allStudents db ex true).drop db.length).map
          (fun n => n.recipient_student) =
        (allStudents.filter (fun s => s.program == ex.course.program.id)).map
          (fun s => some s.id)) ∧
    (∀ n ∈ (create_exam_notification allStudents db ex true).drop db.length,
        n.notif_type = "Exam") ∧
    (create_exam_notification allStudents db ex false = db) := by
  refine ⟨?_, ?_, ?_, rfl⟩
  · simp [create_exam_notification]
  · simp only [create_exam_notification, if_pos, List.drop_left, List.map_map]
    rfl
  · intro n hn
    simp only [create_exam_notification, if_pos, List.drop_left,
      List.mem_map] at hn
    obtain ⟨s, _, rfl⟩ := hn
    rfl

/-! ## Concrete fixtures for the notification claims -/

/-- A concrete program (id 1). -/
def programCS : Program :=
  { id := 1, program_number := 1, name := "Computer Science", code := "CS",
    program_type := "BS", department := 1, duration_years := 4 }

/-- A concrete course of `programCS`. -/
def courseCS101 : Course :=
  { id := 3, code := "CS101", title := "Intro to CS", credit_hours := 3,
    semester := 1, program := programCS }

/-- A concrete exam of `courseCS101`. -/
def examMid : Exam :=
  { id := 1, course := courseCS101, exam_type := "Midterm", date := 45,
    total_marks := 100 }

/-- A concrete enrollment instance. -/
def enrollInstCS : EnrollmentInst :=
  { student := 7, course := courseCS101, semester := 1, year := 2024 }

/-- A concrete admission instance. -/
def admInstCS : AdmissionInst :=
  { student := 7, program := programCS, admission_date := 12, status := "Pending" }

/-- A concrete attendance instance. -/
def attInstCS : AttendanceInst :=
  { student := 7, course := courseCS101, date := 33, status := "Present" }

/-- A concrete grade instance. -/
def gradeInstCS : GradeInst :=
  { student := 7, exam := examMid, obtained_marks := 80 }

/-- A concrete staff row. -/
def staffRowD : Staff :=
  { id := 3, user := some 11, full_name := "Dana", staff_type := "Teaching",
    department := none, email := "d@x.com", phone := "444", is_active := true }

/-- A fee that is already paid. -/
def feePaidRow : Fee :=
  { id := 1, student := 7, amount := 500, due_date := 30, is_paid := true,
    payment_date := some 40 }

/-- An unread `Fee` notification addressed to student 7. -/
def unreadFeeNotif7 : Notification :=
  { recipient_student := some 7, recipient_staff := none, notif_type := "Fee",
    title := "New Fee Assigned", message := "A new fee of 500 is due on 30.",
    read := false, auto_resolved := false }

/-- A `Grade` notification addressed to a different student (9). -/
def gradeNotif9 : Notification :=
  { recipient_student := some 9, recipient_staff := none, notif_type := "Grade",
    title := "Midterm Exam Results", message := "You scored 80 in Intro to CS.",
    read := false, auto_resolved := false }

theorem C6_exam_notification_fanout_witness :
    (examNotifFor examMid studentRowA).notif_type = "Exam" :=
  (C6_exam_notification_fanout [studentRowA] [] examMid).2.2.1
    (examNotifFor examMid studentRowA) (by decide)

/-! ## Claim C7: which saves create notifications -/

/-- Claim C7 counterexample: saving an existing `Enrollment` (an update,
`created = False`) creates no notification row, although the claim promises
at least one for every save. -/
theorem C7_counterexample_enrollment_update :
    (create_enrollment_notification [] enrollInstCS false).length = 0 := rfl

/-- Claim C7 as amended: a save of an `Admission` or `Staff` record always
creates exactly one notification.  For `Enrollment`, `Attendance` and
`Grade` only creation creates one (an update creates none); for `Exam`
creation creates one per student of the program (an update creates none);
for `Fee`, creation creates one only when the fee is unpaid, and an update
creates one only when the fee is unpaid and overdue or when it is paid. -/
theorem C7_notification_triggers (db : List Notification)
    (adm : AdmissionInst) (enr : EnrollmentInst) (fee : Fee) (ex : Exam)
    (att : AttendanceInst) (gr : GradeInst) (st : Staff) (today : Date)
    (allStudents : List Student) :
    (∀ created, (create_admission_notification db adm created).length = db.length + 1) ∧
    ((create_enrollment_notification db enr true).length = db.length + 1 ∧
      create_enrollment_notification db enr false = db) ∧
    ((create_fee_notification db fee true today).length =
        (if fee.is_paid then db.length else db.length + 1) ∧
      (create_fee_notification db fee false today).length =
        (if fee.is_paid then db.length + 1
         else if fee.due_date < today then db.length + 1 else db.length) ∧
      (fee.is_paid = true → create_fee_notification db fee true today = db) ∧
      (fee.is_paid = false → today ≤ fee.due_date →
        create_fee_notification db fee false today = db)) ∧
    ((create_exam_notification allStudents db ex true).length =
        db.length +
          (allStudents.filter (fun s => s.program == ex.course.program.id)).length ∧
      create_exam_notification allStudents db ex false = db) ∧
    ((create_attendance_notification db att true).length = db.length + 1 ∧
      create_attendance_notification db att false = db) ∧
    ((create_grade_notification db gr true).length = db.length + 1 ∧
      create_grade_notification db gr false = db) ∧
    (∀ created, (create_staff_notification db st created).length = db.length + 1) := by
  refine ⟨?_, ⟨?_, rfl⟩, ⟨?_, ?_, ?_, ?_⟩, ⟨?_, rfl⟩, ⟨?_, rfl⟩, ⟨?_, rfl⟩, ?_⟩
  · intro created
    simp [create_admission_notification]
  · simp [create_enrollment_notification]
  · cases hp : fee.is_paid <;> simp [create_fee_notification, hp, feeNewNotif]
  · cases hp : fee.is_paid
    · by_cases hd : fee.due_date < today <;>
        simp [create_fee_notification, hp, hd, feeOverdueNotif]
    · simp [create_fee_notification, hp, feePaidNotif]
  · intro hp
    simp [create_fee_notification, hp]
  · intro hp hd
    have hnot : ¬ (fee.due_date < today) := not_lt.mpr hd
    simp [create_fee_notification, hp, hnot]
  · simp [create_exam_notification]
  · simp [create_attendance_notification]
  · simp [create_grade_notification]
  · intro created
    cases created <;> simp [create_staff_notification]

theorem C7_notification_triggers_witness :
    create_fee_notification [] feePaidRow true 50 = [] :=
  ((C7_notification_triggers [] admInstCS enrollInstCS feePaidRow examMid
      attInstCS gradeInstCS staffRowD 50 []).2.2.1).2.2.1 rfl

/-! ## Claim C9: the paid-fee update branch -/

/-- Claim C9: updating an existing `Fee` to paid marks every unread `Fee`
notification of that student read and auto-resolved, appends one `Fee Paid`
notification for that student already read and auto-resolved, and leaves
notifications of other students, other types, or already-read ones
unchanged. -/
theorem C9_fee_paid_update (db : List Notification) (fee : Fee) (today : Date)
    (hp : fee.is_paid = true) :
    (create_fee_notification db fee false today).length = db.length + 1 ∧
    (create_fee_notification db fee false today).getLast? = some (feePaidNotif fee) ∧
    (feePaidNotif fee).recipient_student = some fee.student ∧
    (feePaidNotif fee).notif_type = "Fee" ∧
    (feePaidNotif fee).read = true ∧
    (feePaidNotif fee).auto_resolved = true ∧
    (∀ i, i < db.length →
      (create_fee_notification db fee false today)[i]? =
        (db[i]?).map (resolveFeeNotif fee.student)) ∧
    (∀ n : Notification,
      n.recipient_student = some fee.student → n.notif_type = "Fee" →
        n.read = false →
        resolveFeeNotif fee.student n = { n with read := true, auto_resolved := true }) ∧
    (∀ n : Notification,
      (n.recipient_student ≠ some fee.student ∨ n.notif_type ≠ "Fee" ∨ n.read = true) →
        resolveFeeNotif fee.student n = n) := by
  have hr : create_fee_notification db fee false today =
      (db.map (resolveFeeNotif fee.student)) ++ [feePaidNotif fee] := by
    simp [create_fee_notification, hp]
  refine ⟨?_, ?_, rfl, rfl, rfl, rfl, ?_, ?_, ?_⟩
  · rw [hr]; simp
  · rw [hr]
    exact List.getLast?_concat _
  · intro i hi
    rw [hr]
    rw [List.getElem?_append, if_pos (by simpa using hi)]
    exact List.getElem?_map _ _ _
  · intro n h1 h2 h3
    simp [resolveFeeNotif, h1, h2, h3]
  · intro n hn
    rcases hn with h | h | h
    · simp only [resolveFeeNotif]
      have : (n.recipient_student == some fee.student) = false := by
        simpa using h
      simp [this]
    · simp only [resolveFeeNotif]
      have : (n.notif_type == "Fee") = false := by
        simpa using h
      simp [this]
    · simp only [resolveFeeNotif]
      simp [h]

theorem C9_fee_paid_update_witness :
    (create_fee_notification [unreadFeeNotif7, gradeNotif9] feePaidRow false 40).length = 3 :=
  (C9_fee_paid_update [unreadFeeNotif7, gradeNotif9] feePaidRow 40 rfl).1

/-! ## Claim C8: notification recipients (`app/serializers.py`) -/

/-- The write-side input of `NotificationSerializer`: both recipient ids are
`required=False` primary-key fields, and `read` / `auto_resolved` are
writable model fields with defaults. -/
structure NotificationInput where
  recipient_student_id : Option Nat
  recipient_staff_id : Option Nat
  notif_type : String
  title : String
  message : String
  read : Bool
  auto_resolved : Bool
deriving DecidableEq, Repr

/-- Validation of a `PrimaryKeyRelatedField`: an absent value passes, a
present value must name an existing row. -/
def fkOk : Option Nat → List Nat → Bool
  | none, _ => true
  | some i, ids => ids.contains i

/-- A create through `NotificationSerializer`: the only validation is that
each supplied recipient id exists; there is no mutual-exclusion check, and
the created row copies both recipient fields from the input. -/
def NotificationSerializer.create (studentIds staffIds : List Nat)
    (db : List Notification) (inp : NotificationInput) :
    Except String (List Notification) :=
  if fkOk inp.recipient_student_id studentIds &&
      fkOk inp.recipient_staff_id staffIds then
    Except.ok (db ++ [{ recipient_student := inp.recipient_student_id,
                        recipient_staff := inp.recipient_staff_id,
                        notif_type := inp.notif_type, title := inp.title,
                        message := inp.message, read := inp.read,
                        auto_resolved := inp.auto_resolved }])
  else Except.error "Invalid pk - object does not exist."

/-- Notification tables reachable from empty through the signal handlers
and the notification create endpoint. -/
inductive NotifReach (studentIds staffIds : List Nat)
    (allStudents : List Student) (today : Date) : List Notification → Prop
  | init : NotifReach studentIds staffIds allStudents today []
  | serializer_create (db : List Notification) (inp : NotificationInput)
      (db2 : List Notification) :
      NotifReach studentIds staffIds allStudents today db →
      NotificationSerializer.create studentIds staffIds db inp = Except.ok db2 →
      NotifReach studentIds staffIds allStudents today db2
  | admission_save (db : List Notification) (inst : AdmissionInst) (created : Bool) :
      NotifReach studentIds staffIds allStudents today db →
      NotifReach studentIds staffIds allStudents today
        (create_admission_notification db inst created)
  | enrollment_save (db : List Notification) (inst : EnrollmentInst) (created : Bool) :
      NotifReach studentIds staffIds allStudents today db →
      NotifReach studentIds staffIds allStudents today
        (create_enrollment_notification db inst created)
  | fee_save (db : List Notification) (fee : Fee) (created : Bool) :
      NotifReach studentIds staffIds allStudents today db →
      NotifReach studentIds staffIds allStudents today
        (create_fee_notification db fee created today)
  | exam_save (db : List Notification) (inst : Exam) (created : Bool) :
      NotifReach studentIds staffIds allStudents today db →
      NotifReach studentIds staffIds allStudents today
        (create_exam_notification allStudents db inst created)
  | attendance_save (db : List Notification) (inst : AttendanceInst) (created : Bool) :
      NotifReach studentIds staffIds allStudents today db →
      NotifReach studentIds staffIds allStudents today
        (create_attendance_notification db inst created)
  | grade_save (db : List Notification) (inst : GradeInst) (created : Bool) :
      NotifReach studentIds staffIds allStudents today db →
      NotifReach studentIds staffIds allStudents today
        (create_grade_notification db inst created)
  | staff_save (db : List Notification) (inst : Staff) (created : Bool) :
      NotifReach studentIds staffIds allStudents today db →
      NotifReach studentIds staffIds allStudents today
        (create_staff_notification db inst created)

/-- An input naming both an existing student (7) and an existing staff
member (3). -/
def bothRecipientsInput : NotificationInput :=
  { recipient_student_id := some 7, recipient_staff_id := some 3,
    notif_type := "Manual", title := "Note", message := "Hello",
    read := false, auto_resolved := false }

/-- The row the serializer stores for `bothRecipientsInput`. -/
def bothRecipientsNotif : Notification :=
  { recipient_student := some 7, recipient_staff := some 3,
    notif_type := "Manual", title := "Note", message := "Hello",
    read := false, auto_resolved := false }

/-- Claim C8 counterexample: a state holding a notification whose
`recipient_student` and `recipient_staff` are both non-null is reachable —
the serializer accepts an input naming both recipients. -/
theorem C8_counterexample_both_recipients :
    NotifReach [7] [3] [] 0 [bothRecipientsNotif] ∧
    bothRecipientsNotif.recipient_student.isSome = true ∧
    bothRecipientsNotif.recipient_staff.isSome = true :=
  ⟨NotifReach.serializer_create [] bothRecipientsInput [bothRecipientsNotif]
      NotifReach.init rfl, rfl, rfl⟩

/-- Claim C8 as amended: `recipient_student` and `recipient_staff` are each
nullable; every notification appended by a post-save hook has at most one of
the two non-null, and the fee handler's bulk update never touches the
recipient fields of existing rows; but the serializer performs no
mutual-exclusion check — any create whose supplied ids exist succeeds and
copies both recipient fields verbatim, so rows with both non-null are
reachable. -/
theorem C8_recipient_exclusivity (db : List Notification)
    (adm : AdmissionInst) (enr : EnrollmentInst) (fee : Fee) (ex : Exam)
    (att : AttendanceInst) (gr : GradeInst) (st : Staff) (today : Date)
    (allStudents : List Student) (created : Bool) (sid : Nat)
    (studentIds staffIds : List Nat) (inp : NotificationInput) :
    (∀ n ∈ (create_admission_notification db adm created).drop db.length,
        n.recipient_staff = none) ∧
    (∀ n ∈ (create_enrollment_notification db enr created).drop db.length,
        n.recipient_staff = none) ∧
    (∀ n ∈ (create_fee_notification db fee created today).drop db.length,
        n.recipient_staff = none) ∧
    (∀ n ∈ (create_exam_notification allStudents db ex created).drop db.length,
        n.recipient_staff = none) ∧
    (∀ n ∈ (create_attendance_notification db att created).drop db.length,
        n.recipient_staff = none) ∧
    (∀ n ∈ (create_grade_notification db gr created).drop db.length,
        n.recipient_staff = none) ∧
    (∀ n ∈ (create_staff_notification db st created).drop db.length,
        n.recipient_student = none) ∧
    (∀ n : Notification,
      (resolveFeeNotif sid n).recipient_student = n.recipient_student ∧
      (resolveFeeNotif sid n).recipient_staff = n.recipient_staff) ∧
    (fkOk inp.recipient_student_id studentIds = true →
      fkOk inp.recipient_staff_id staffIds = true →
      NotificationSerializer.create studentIds staffIds db inp =
        Except.ok (db ++ [{ recipient_student := inp.recipient_student_id,
                            recipient_staff := inp.recipient_staff_id,
                            notif_type := inp.notif_type, title := inp.title,
                            message := inp.message, read := inp.read,
                            auto_resolved := inp.auto_resolved }])) := by
  have hdrop : ∀ (l : List Notification) (x : Notification),
      (l ++ [x]).drop l.length = [x] := by
    intro l x
    exact List.drop_left l [x]
  have hdropm : ∀ (l : List Notification) (f : Notification → Notification)
      (x : Notification), (l.map f ++ [x]).drop l.length = [x] := by
    intro l f x
    have h2 : (l.map f ++ [x]).drop (l.map f).length = [x] := List.drop_left _ _
    simp only [List.length_map] at h2
    exact h2
  refine ⟨?_, ?_, ?_, ?_, ?_, ?_, ?_, ?_, ?_⟩
  · cases created <;>
      simp [create_admission_notification, hdrop]
  · cases created <;>
      simp [create_enrollment_notification, hdrop]
  · cases created
    · by_cases hp : fee.is_paid
      · simp [create_fee_notification, hp, hdropm, feePaidNotif]
      · by_cases hd : fee.due_date < today <;>
          simp [create_fee_notification, hp, hd, hdrop, feeOverdueNotif]
    · by_cases hp : fee.is_paid
      · simp [create_fee_notification, hp, hdrop]
      · simp [create_fee_notification, hp, hdrop, feeNewNotif]
  · cases created
    · simp [create_exam_notification]
    · simp only [create_exam_notification, if_pos, List.drop_left]
      intro n hn
      simp only [List.mem_map] at hn
      obtain ⟨s, _, rfl⟩ := hn
      rfl
  · cases created <;>
      simp [create_attendance_notification, hdrop]
  · cases created <;>
      simp [create_grade_notification, hdrop]
  · cases created <;>
      simp [create_staff_notification, hdrop]
  · intro n
    unfold resolveFeeNotif
    split <;> simp
  · intro h1 h2
    simp [NotificationSerializer.create, h1, h2]

/-- An input naming only an existing student. -/
def studentOnlyInput : NotificationInput :=
  { recipient_student_id := some 7, recipient_staff_id := none,
    notif_type := "Manual", title := "Note", message := "Hi",
    read := false, auto_resolved := false }

theorem C8_recipient_exclusivity_witness :
    NotificationSerializer.create [7] [3] [] studentOnlyInput =
      Except.ok [{ recipient_student := some 7, recipient_staff := none,
                   notif_type := "Manual", title := "Note", message := "Hi",
                   read := false, auto_resolved := false }] :=
  (C8_recipient_exclusivity [] admInstCS enrollInstCS feePaidRow examMid
      attInstCS gradeInstCS staffRowD 0 [] false 7 [7] [3]
      studentOnlyInput).2.2.2.2.2.2.2.2 (by decide) (by decide)

/-! ## Claim C3: bulk create endpoints (`app/views.py`)

`StudentBulkAPIView.post` and `CourseBulkAPIView.post` validate the whole
submitted list with a many-item serializer inside `@transaction.atomic`,
then save every item.  On `StudentSerializer` the `user` field is
`read_only`, so it never reaches `validated_data` and the created ORM
instance carries no user; the NOT NULL `user_id` column then rejects the
insert, the transaction rolls back, and the unhandled `IntegrityError`
yields an error response instead of 201. -/

/-- An item of a student bulk request (the writable serializer fields). -/
structure StudentItem where
  registration_no : String
  full_name : String
  gender : String
  dob : Date
  email : String
  phone : String
  address : String
  program_id : Nat
  enrollment_year : Nat
deriving DecidableEq, Repr

/-- Validation of one student item: `validate_dob` (no future date of
birth), the choices check on `gender`, the primary-key check on
`program_id`, and the `UniqueValidator`s that DRF generates for the unique
`registration_no`, `email` and `phone` columns (checked against the stored
table, not within the submitted list). -/
def StudentSerializer.item_valid (programIds : List Nat) (db : List Student)
    (today : Date) (it : StudentItem) : Bool :=
  decide (it.dob ≤ today) &&
  (it.gender == "Male" || it.gender == "Female" || it.gender == "Other") &&
  programIds.contains it.program_id &&
  db.all (fun s => !(s.registration_no == it.registration_no)) &&
  db.all (fun s => !(s.email == it.email)) &&
  db.all (fun s => !(s.phone == it.phone))

/-- The ORM instance built from a validated item: `user` is absent from
`validated_data` (the serializer declares it `read_only`), so the instance
carries no user. -/
def studentFromItem (nextId : Nat) (it : StudentItem) : Student :=
  { id := nextId, registration_no := it.registration_no, user := none,
    full_name := it.full_name, gender := it.gender, dob := it.dob,
    email := it.email, phone := it.phone, address := it.address,
    program := it.program_id, enrollment_year := it.enrollment_year,
    is_active := true }

/-- The database insert of a student row, enforcing the schema: `user_id`
is NOT NULL and unique (one-to-one), and `registration_no`, `email` and
`phone` are unique. -/
def Student.dbInsert (db : List Student) (s : Student) :
    Except String (List Student) :=
  if s.user.isNone then
    Except.error "IntegrityError: NOT NULL constraint failed: app_student.user_id"
  else if db.any (fun t => t.user == s.user) then
    Except.error "IntegrityError: UNIQUE constraint failed: app_student.user_id"
  else if db.any (fun t => t.registration_no == s.registration_no ||
      t.email == s.email || t.phone == s.phone) then
    Except.error "IntegrityError: UNIQUE constraint failed: app_student"
  else Except.ok (db ++ [s])

/-- `serializer.save()` for a many-item student serializer: create each
item in order, stopping at the first database error. -/
def saveStudents : List Student → List StudentItem → Except String (List Student)
  | db, [] => Except.ok db
  | db, it :: rest =>
    match Student.dbInsert db (studentFromItem db.length it) with
    | Except.error e => Except.error e
    | Except.ok db2 => saveStudents db2 rest

/-- `StudentBulkAPIView.post`: validate the list; on failure answer 400
with the state unchanged; on success save inside the transaction — if the
save raises, the transaction rolls back (state unchanged) and the
unhandled exception becomes a 500 response; otherwise answer 201. -/
def StudentBulkAPIView.post (programIds : List Nat) (db : List Student)
    (today : Date) (items : List StudentItem) : List Student × Nat :=
  if items.all (StudentSerializer.item_valid programIds db today) then
    match saveStudents db items with
    | Except.ok db2 => (db2, 201)
    | Except.error _ => (db, 500)
  else (db, 400)

/-- `Course` row as stored by the bulk endpoint, with its program kept as a
foreign-key id. -/
structure CourseRow where
  id : Nat
  code : String
  title : String
  credit_hours : Nat
  semester : Nat
  program_id : Nat
deriving DecidableEq, Repr

/-- An item of a course bulk request (all model fields are writable:
`program_id` is the write-side source of `program`). -/
structure CourseItem where
  code : String
  title : String
  credit_hours : Nat
  semester : Nat
  program_id : Nat
deriving DecidableEq, Repr

/-- Validation of one course item: the `UniqueValidator` on `code`, the
primary-key check on `program_id`, and the choices check on `semester`
(semesters 1 to 8). -/
def CourseSerializer.item_valid (programIds : List Nat) (db : List CourseRow)
    (it : CourseItem) : Bool :=
  db.all (fun c => !(c.code == it.code)) &&
  programIds.contains it.program_id &&
  decide (1 ≤ it.semester) && decide (it.semester ≤ 8)

/-- The course row built from a validated item. -/
def courseFromItem (nextId : Nat) (it : CourseItem) : CourseRow :=
  { id := nextId, code := it.code, title := it.title,
    credit_hours := it.credit_hours, semester := it.semester,
    program_id := it.program_id }

/-- The database insert of a course row, enforcing the unique `code`
column. -/
def CourseRow.dbInsert (db : List CourseRow) (c : CourseRow) :
    Except String (List CourseRow) :=
  if db.any (fun t => t.code == c.code) then
    Except.error "IntegrityError: UNIQUE constraint failed: app_course.code"
  else Except.ok (db ++ [c])

/-- `serializer.save()` for a many-item course serializer. -/
def saveCourses : List CourseRow → List CourseItem → Except String (List CourseRow)
  | db, [] => Except.ok db
  | db, it :: rest =>
    match CourseRow.dbInsert db (courseFromItem db.length it) with
    | Except.error e => Except.error e
    | Except.ok db2 => saveCourses db2 rest

/-- `CourseBulkAPIView.post`, with the same shape as the student bulk
endpoint. -/
def CourseBulkAPIView.post (programIds : List Nat) (db : List CourseRow)
    (items : List CourseItem) : List CourseRow × Nat :=
  if items.all (CourseSerializer.item_valid programIds db) then
    match saveCourses db items with
    | Except.ok db2 => (db2, 201)
    | Except.error _ => (db, 500)
  else (db, 400)

/-- A student item that passes every serializer validation. -/
def studentItemOk : StudentItem :=
  { registration_no := "R-100", full_name := "Eve", gender := "Female",
    dob := 200, email := "e@x.com", phone := "555", address := "addr e",
    program_id := 1, enrollment_year := 2024 }

/-- A course item that passes validation. -/
def courseItemOk : CourseItem :=
  { code := "CS102", title := "Data Structures", credit_hours := 3,
    semester := 2, program_id := 1 }

/-- A course item rejected by validation (semester 9 is not a choice). -/
def courseItemBad : CourseItem :=
  { code := "CS103", title := "Algorithms", credit_hours := 3,
    semester := 9, program_id := 1 }

/-- Claim C3, evaluated at the failing input: a one-element student list
passes validation, yet the bulk create stores nothing and does not answer
201 — the serializer never supplies the required `user`, the insert
violates NOT NULL, and the transaction rolls back.  The course endpoint, by
contrast, behaves as the claim states on these inputs (create on success,
400 with unchanged state on validation failure). -/
theorem C3_student_bulk_not_null_bug :
    ([studentItemOk].all (StudentSerializer.item_valid [1] [] 1000)) = true ∧
    StudentBulkAPIView.post [1] [] 1000 [studentItemOk] = ([], 500) ∧
    CourseBulkAPIView.post [1] [] [courseItemOk] =
      ([courseFromItem 0 courseItemOk], 201) ∧
    CourseBulkAPIView.post [1] [] [courseItemBad] = ([], 400) := by
  decide

/-! ## Claim C10: user profile auto-creation (`app/models.py`,
`app/serializers.py`) -/

/-- A Django `User` row as the profile machinery reads it. -/
structure DjangoUser where
  id : Nat
  username : String
  is_staff : Bool
  is_superuser : Bool
deriving DecidableEq, Repr

/-- The role the `create_user_profile` receiver picks for a new user. -/
def roleFor (u : DjangoUser) : String :=
  if u.is_superuser then "Admin" else if u.is_staff then "Staff" else "Student"

/-- `UserProfile.objects.create`, with the one-to-one (unique) constraint
on `user` enforced by the database. -/
def UserProfile.objects_create (profiles : List UserProfile) (userId : Nat)
    (role : String) : Except String (List UserProfile) :=
  if profiles.any (fun p => p.userId == userId) then
    Except.error "IntegrityError: UNIQUE constraint failed: app_userprofile.user_id"
  else Except.ok (profiles ++ [{ userId := userId, role := role }])

/-- The `create_user_profile` post_save receiver (`app/models.py`): on
creation, insert a profile with the computed role; on a plain save of an
existing user, do nothing. -/
def create_user_profile (profiles : List UserProfile) (u : DjangoUser)
    (created : Bool) : Except String (List UserProfile) :=
  if created then UserProfile.objects_create profiles u.id (roleFor u)
  else Except.ok profiles

/-- `UserCreateSerializer.create` (`app/serializers.py`): `user.save()`
fires the post_save signal with `created=True`, which already inserts the
profile, and the serializer then explicitly creates a second profile for
the same user with the same role expression. -/
def UserCreateSerializer.create (profiles : List UserProfile)
    (u : DjangoUser) : Except String (List UserProfile) :=
  match create_user_profile profiles u true with
  | Except.error e => Except.error e
  | Except.ok p1 =>
      UserProfile.objects_create p1 u.id
        (if u.is_superuser then "Admin"
         else if u.is_staff then "Staff" else "Student")

/-- A plain (non-staff, non-superuser) new user. -/
def userPlain : DjangoUser :=
  { id := 21, username := "u1", is_staff := false, is_superuser := false }

/-- A staff new user. -/
def userStaffFlag : DjangoUser :=
  { id := 22, username := "u2", is_staff := true, is_superuser := false }

/-- A superuser new user. -/
def userSuper : DjangoUser :=
  { id := 23, username := "u3", is_staff := true, is_superuser := true }

/-- Claim C10, evaluated at the failing input: the post_save receiver alone
creates exactly one profile with the claimed role (Admin for superusers,
then Staff, then Student) and a non-create save adds none; but creating a
user through `UserCreateSerializer` raises an IntegrityError, because the
signal has already created the profile and the serializer then attempts a
second one for the same user. -/
theorem C10_user_profile_duplicate_bug :
    create_user_profile [] userPlain true =
      Except.ok [{ userId := 21, role := "Student" }] ∧
    create_user_profile [] userStaffFlag true =
      Except.ok [{ userId := 22, role := "Staff" }] ∧
    create_user_profile [] userSuper true =
      Except.ok [{ userId := 23, role := "Admin" }] ∧
    create_user_profile [{ userId := 21, role := "Student" }] userPlain false =
      Except.ok [{ userId := 21, role := "Student" }] ∧
    UserCreateSerializer.create [] userPlain =
      Except.error "IntegrityError: UNIQUE constraint failed: app_userprofile.user_id" :=
  ⟨rfl, rfl, rfl, rfl, rfl⟩

end EduSystem
